import Mathlib

/-!
Verification of the camera-snitch daemon (src/main.rs): a shallow embedding
of the detection / debounce / publish pipeline, followed by theorems about
the behaviours the specification describes.

Modelling conventions:
* Timestamps (`std::time::Instant`) are integers counting milliseconds;
  durations are natural numbers of milliseconds.  `elapsed` at time `now`
  for a reference point `t` is `now - t`.
* The inotify event mask is a natural number bit mask; the constants below
  carry the Linux values of `IN_OPEN`, `IN_CLOSE_WRITE`, `IN_CLOSE_NOWRITE`.
  The Rust `match` on `event.mask` compares the whole mask for equality
  with the named constants (bitflags constants used as match patterns),
  which the embedding mirrors with equality tests.
* The broker is an oracle: each publish attempt is given a
  `PublishOutcome` saying whether the broker accepted it.  The messages a
  run hands to the broker client are collected in a list.
* The `tokio::select!` loop is modelled as a step function over the three
  possible winners of the race (a stream event, an MQTT notification, the
  idle tick), iterated over an explicit input list.
-/

namespace CameraSnitch

/-- The `enum CameraState` of src/main.rs: `On` or `Off`. -/
inductive CameraState
  | On
  | Off
deriving DecidableEq, Repr

/-- The MQTT quality-of-service levels of `rumqttc::QoS`. -/
inductive QoS
  | AtMostOnce
  | AtLeastOnce
  | ExactlyOnce
deriving DecidableEq, Repr

/-- An MQTT publish as handed to `client.publish(topic, qos, retain, payload)`. -/
structure MqttMessage where
  topic : String
  qos : QoS
  retain : Bool
  payload : String
deriving DecidableEq, Repr

/-- Outcome of one broker publish attempt (the `Result` of `client.publish`). -/
inductive PublishOutcome
  | ok
  | err (msg : String)
deriving DecidableEq, Repr

/-- The command-line configuration surface (`struct Args`). -/
structure Args where
  mqtt_host : String
  mqtt_port : Nat
  mqtt_keepalive : Nat
  mqtt_pending_throttle : Nat
  debounce_duration : Nat
  loop_duration : Nat
deriving DecidableEq, Repr

/-- The mutable loop state of `main`: `last_state` and `last_event_time`. -/
structure LoopState where
  lastState : CameraState
  lastEventTime : Int
deriving DecidableEq, Repr

/-- Mask value of `inotify::EventMask::OPEN` (`IN_OPEN = 0x20`). -/
def maskOPEN : Nat := 32

/-- Mask value of `inotify::EventMask::CLOSE_WRITE` (`IN_CLOSE_WRITE = 0x8`). -/
def maskCLOSE_WRITE : Nat := 8

/-- Mask value of `inotify::EventMask::CLOSE_NOWRITE` (`IN_CLOSE_NOWRITE = 0x10`). -/
def maskCLOSE_NOWRITE : Nat := 16

/-- One item of the inotify event stream: `stream.next()` yields
`Result<Event, Error>`; only the mask of an `Ok` event is inspected. -/
inductive StreamEvent
  | ok (mask : Nat)
  | err
deriving DecidableEq, Repr

/-- The candidate state an incoming stream item leaves in `current_state`.
`current_state` starts each iteration as `last_state.clone()`; an `Ok`
event whose mask is exactly `OPEN` sets it to `On`, exactly `CLOSE_NOWRITE`
or `CLOSE_WRITE` sets it to `Off`, and every other mask (and an `Err`
item) leaves it unchanged (`_ => {}`). -/
def candidateOf (last : CameraState) (e : StreamEvent) : CameraState :=
  match e with
  | .err => last
  | .ok mask =>
      if mask = maskOPEN then CameraState.On
      else if mask = maskCLOSE_NOWRITE ∨ mask = maskCLOSE_WRITE then CameraState.Off
      else last

/-- Topic used by `send_event`. -/
def stateTopic : String := "homeassistant/binary_sensor/officecamera/state"

/-- Payload chosen by the `match state` in `send_event`. -/
def statePayload : CameraState → String
  | .On => "ON"
  | .Off => "OFF"

/-- The message `send_event` hands to `client.publish`: state topic,
`QoS::AtLeastOnce`, `retain = true`, `"ON"`/`"OFF"` payload. -/
def stateMessage (s : CameraState) : MqttMessage :=
  { topic := stateTopic
    qos := QoS.AtLeastOnce
    retain := true
    payload := statePayload s }

/-- What one call of `send_event` produces: the attempted message, the log
line chosen by the `match res`, and the function result. -/
structure SendResult where
  message : MqttMessage
  log : String
  result : Except String Unit
deriving Repr

/-- The function `send_event(client, state)`: builds the state message,
publishes it, logs success or failure of the publish, and returns
`Ok(())` in both cases (a failed publish is logged, never propagated). -/
def send_event (state : CameraState) (outcome : PublishOutcome) : SendResult :=
  let payload := statePayload state
  { message := stateMessage state
    log := match outcome with
      | .ok => "published state: " ++ payload
      | .err e => "error publishing state: " ++ e
    result := Except.ok () }

/-- Result of one pass through the stream-event branch of the loop. -/
structure StepResult where
  state : LoopState
  published : Option MqttMessage
deriving DecidableEq, Repr

/-- The stream-event branch of the `tokio::select!` (src/main.rs lines
72–100): compute `current_state` from the event, then
`if last_event_time.elapsed() >= debounce_duration && current_state != last_state`
publish via `send_event`, set `last_state := current_state` and reset
`last_event_time` to `now`; otherwise leave the state untouched. -/
def debounceStep (window : Nat) (s : LoopState) (e : StreamEvent) (now : Int)
    (outcome : PublishOutcome) : StepResult :=
  let current_state := candidateOf s.lastState e
  if (window : Int) ≤ now - s.lastEventTime ∧ current_state ≠ s.lastState then
    { state := { lastState := current_state, lastEventTime := now }
      published := some (send_event current_state outcome).message }
  else
    { state := s, published := none }

/-- The three possible winners of the `tokio::select!` race in one loop
iteration: a stream event (with its arrival time and the broker's answer
to the publish, should one happen), an MQTT event-loop notification, or
the idle `else` branch that just sleeps. -/
inductive LoopInput
  | signal (e : StreamEvent) (now : Int) (outcome : PublishOutcome)
  | mqttNotification
  | idleTick
deriving DecidableEq, Repr

/-- Whether a loop input is not a stream event. -/
def nonSignal : LoopInput → Bool
  | .signal _ _ _ => false
  | .mqttNotification => true
  | .idleTick => true

/-- One iteration of the infinite loop: only the stream-event branch
touches the state or publishes; the MQTT-notification branch and the idle
tick only log / sleep. -/
def loopStep (window : Nat) (s : LoopState) : LoopInput → StepResult
  | .signal e now outcome => debounceStep window s e now outcome
  | .mqttNotification => { state := s, published := none }
  | .idleTick => { state := s, published := none }

/-- Iterate the loop over a list of inputs, collecting every message that
was handed to the broker client. -/
def runLoop (window : Nat) : LoopState → List LoopInput → LoopState × List MqttMessage
  | s, [] => (s, [])
  | s, i :: rest =>
      let r := loopStep window s i
      let res := runLoop window r.state rest
      (res.1, (match r.published with | some m => [m] | none => []) ++ res.2)

/-- A list of identically-shaped signal inputs for one fixed stream event,
at the given times and with the given broker outcomes. -/
def signalsOf (e : StreamEvent) (ps : List (Int × PublishOutcome)) : List LoopInput :=
  ps.map fun p => LoopInput.signal e p.1 p.2

/-- A JSON value, as built by the `serde_json::json!` macro in
`write_discovery` (only the shapes that document uses). -/
inductive Json
  | str (s : String)
  | arr (xs : List Json)
  | obj (fields : List (String × Json))

/-- Look a key up in a JSON object's field list. -/
def jsonLookup (key : String) : List (String × Json) → Option Json
  | [] => none
  | f :: rest => if f.1 = key then some f.2 else jsonLookup key rest

/-- Field access on a JSON value: `none` unless it is an object holding
the key. -/
def Json.field (j : Json) (key : String) : Option Json :=
  match j with
  | .obj fields => jsonLookup key fields
  | _ => none

/-- Does an optional JSON value hold a string? -/
def isStr : Option Json → Bool
  | some (.str _) => true
  | _ => false

/-- Does an optional JSON value hold an array of strings? -/
def isStrArr : Option Json → Bool
  | some (.arr xs) => xs.all fun j => match j with | .str _ => true | _ => false
  | _ => false

/-- The discovery payload literally built by `write_discovery`. -/
def discoveryPayload : Json :=
  .obj
    [ ("name", .str "OfficeCamera"),
      ("device", .obj
        [ ("identifiers", .arr [.str "officecamera"]),
          ("name", .str "Office Camera"),
          ("sw_version", .str "0.1"),
          ("model", .str "Custom Binary Sensor"),
          ("manufacturer", .str "Will Eaton <me@wseaton.com>") ]),
      ("state_topic", .str "homeassistant/binary_sensor/officecamera/state"),
      ("device_class", .str "connectivity"),
      ("payload_on", .str "ON"),
      ("payload_off", .str "OFF") ]

/-- The fixed discovery schema of the spec: an object with `name`,
`device{identifiers[], name, sw_version, model, manufacturer}`,
`state_topic`, `device_class`, `payload_on`, `payload_off`. -/
def validDevice : Json → Bool
  | .obj fs =>
      isStrArr (jsonLookup "identifiers" fs) &&
      isStr (jsonLookup "name" fs) &&
      isStr (jsonLookup "sw_version" fs) &&
      isStr (jsonLookup "model" fs) &&
      isStr (jsonLookup "manufacturer" fs)
  | _ => false

/-- Schema check for the whole discovery descriptor. -/
def validDiscovery : Json → Bool
  | .obj fs =>
      isStr (jsonLookup "name" fs) &&
      (match jsonLookup "device" fs with
        | some d => validDevice d
        | none => false) &&
      isStr (jsonLookup "state_topic" fs) &&
      isStr (jsonLookup "device_class" fs) &&
      isStr (jsonLookup "payload_on" fs) &&
      isStr (jsonLookup "payload_off" fs)
  | _ => false

/-- Topic used by `write_discovery`. -/
def discoveryTopic : String := "homeassistant/binary_sensor/officecamera/config"

/-- A discovery publish as handed to `client.publish` by `write_discovery`
(payload kept as the JSON document it serializes). -/
structure DiscoveryMessage where
  topic : String
  qos : QoS
  retain : Bool
  payload : Json

/-- The one discovery message `write_discovery` publishes. -/
def discoveryMessage : DiscoveryMessage :=
  { topic := discoveryTopic
    qos := QoS.AtLeastOnce
    retain := true
    payload := discoveryPayload }

/-- The function `write_discovery(client)`: publishes the descriptor once
(retained, at-least-once); a publish error is logged and the function
still returns `Ok(())`.  The function reads no configuration. -/
def write_discovery (outcome : PublishOutcome) :
    List DiscoveryMessage × Except String Unit :=
  match outcome with
  | .ok => ([discoveryMessage], Except.ok ())
  | .err _ => ([discoveryMessage], Except.ok ())

/-- The watcher-registration loop of `main`
(`for file in files { notify.watches().add(...) }`): each glob item is
itself a `Result`; an `Err` item aborts `main` via `?`, otherwise the path
is registered.  Zero matching paths is not an error. -/
def addWatches : List (Except String String) → Except String (List String)
  | [] => Except.ok []
  | p :: rest =>
      match p with
      | .error e => Except.error e
      | .ok path =>
          match addWatches rest with
          | .error e => Except.error e
          | .ok others => Except.ok (path :: others)

/-- What startup (src/main.rs lines 40–69) leaves behind: the discovery
publish attempts, the result of `write_discovery`, and the initial loop
state. -/
structure StartupOutcome where
  discoveryPublishes : List DiscoveryMessage
  discoveryResult : Except String Unit
  state : LoopState

/-- Startup after the broker connection: call `write_discovery` once, set
`last_state = CameraState::Off` and
`last_event_time = Instant::now() - debounce_duration`, so the timer is
already a full window in the past. -/
def startup (args : Args) (now : Int) (dOutcome : PublishOutcome) : StartupOutcome :=
  let d := write_discovery dOutcome
  { discoveryPublishes := d.1
    discoveryResult := d.2
    state := { lastState := CameraState.Off
               lastEventTime := now - (args.debounce_duration : Int) } }

/-! ## Basic lemmas about the embedded operations -/

/-- Whatever the broker answers, the message `send_event` attempts is the
state message for its argument. -/
lemma send_event_message (c : CameraState) (o : PublishOutcome) :
    (send_event c o).message = stateMessage c := by
  cases o <;> rfl

/-- The function result of `send_event` is `Ok(())` for every broker
outcome. -/
lemma send_event_result (c : CameraState) (o : PublishOutcome) :
    (send_event c o).result = Except.ok () := by
  cases o <;> rfl

/-- When the debounce gate is open (window elapsed and candidate differs),
the step publishes the candidate's state message and moves to the state
`⟨candidate, now⟩`. -/
lemma debounceStep_pos (window : Nat) (s : LoopState) (e : StreamEvent) (now : Int)
    (o : PublishOutcome)
    (h : (window : Int) ≤ now - s.lastEventTime ∧ candidateOf s.lastState e ≠ s.lastState) :
    debounceStep window s e now o =
      { state := { lastState := candidateOf s.lastState e, lastEventTime := now }
        published := some (stateMessage (candidateOf s.lastState e)) } := by
  simp only [debounceStep, if_pos h, send_event_message]

/-- When the debounce gate is closed, the step neither publishes nor
changes the state. -/
lemma debounceStep_neg (window : Nat) (s : LoopState) (e : StreamEvent) (now : Int)
    (o : PublishOutcome)
    (h : ¬((window : Int) ≤ now - s.lastEventTime ∧ candidateOf s.lastState e ≠ s.lastState)) :
    debounceStep window s e now o = { state := s, published := none } := by
  simp only [debounceStep, if_neg h]

/-- Re-applying the same stream event to the candidate it produced leaves
that candidate unchanged. -/
lemma candidateOf_idem (last : CameraState) (e : StreamEvent) :
    candidateOf (candidateOf last e) e = candidateOf last e := by
  cases e with
  | err => rfl
  | ok mask =>
      by_cases h1 : mask = maskOPEN
      · simp [candidateOf, h1]
      · by_cases h2 : mask = maskCLOSE_NOWRITE ∨ mask = maskCLOSE_WRITE
        · simp [candidateOf, h1, h2]
        · simp [candidateOf, h1, h2]

/-- A signal whose candidate equals the confirmed state is a no-op
iteration: no publish, no timer reset, no state change. -/
lemma loopStep_fixed (window : Nat) (s : LoopState) (e : StreamEvent) (now : Int)
    (o : PublishOutcome) (h : candidateOf s.lastState e = s.lastState) :
    loopStep window s (.signal e now o) = { state := s, published := none } := by
  show debounceStep window s e now o = _
  exact debounceStep_neg window s e now o (fun hc => hc.2 h)

/-- The MQTT-notification and idle-tick branches are no-op iterations. -/
lemma loopStep_nonSignal (window : Nat) (s : LoopState) (i : LoopInput)
    (h : nonSignal i = true) :
    loopStep window s i = { state := s, published := none } := by
  cases i with
  | signal e n o => simp [nonSignal] at h
  | mqttNotification => rfl
  | idleTick => rfl

/-- Running any number of copies of a stream event whose candidate is
already the confirmed state publishes nothing and preserves the state. -/
lemma runLoop_fixed_signals (window : Nat) (e : StreamEvent) (s : LoopState)
    (h : candidateOf s.lastState e = s.lastState) :
    ∀ ps : List (Int × PublishOutcome), runLoop window s (signalsOf e ps) = (s, []) := by
  intro ps
  induction ps with
  | nil => rfl
  | cons p rest ih =>
      simp only [signalsOf, List.map_cons] at ih ⊢
      simp only [runLoop, loopStep_fixed window s e p.1 p.2 h, ih]
      rfl

/-- Running the loop on inputs that contain no stream event publishes
nothing and preserves the state. -/
lemma runLoop_nonSignal (window : Nat) :
    ∀ (inputs : List LoopInput) (s : LoopState), inputs.all nonSignal = true →
      runLoop window s inputs = (s, []) := by
  intro inputs
  induction inputs with
  | nil => intro s _; rfl
  | cons i rest ih =>
      intro s h
      simp only [List.all_cons, Bool.and_eq_true] at h
      simp only [runLoop, loopStep_nonSignal window s i h.1, ih s h.2]
      rfl

/-- Over any run of identical raw signals, at most one message is
published. -/
lemma runLoop_signals_le_one (window : Nat) (e : StreamEvent) :
    ∀ (ps : List (Int × PublishOutcome)) (s : LoopState),
      (runLoop window s (signalsOf e ps)).2.length ≤ 1 := by
  intro ps
  induction ps with
  | nil => intro s; simp [signalsOf, runLoop]
  | cons p rest ih =>
      intro s
      by_cases hc :
        (window : Int) ≤ p.1 - s.lastEventTime ∧ candidateOf s.lastState e ≠ s.lastState
      · have hstep := debounceStep_pos window s e p.1 p.2 hc
        have hfix :
            candidateOf
              (LoopState.mk (candidateOf s.lastState e) p.1).lastState e =
              (LoopState.mk (candidateOf s.lastState e) p.1).lastState :=
          candidateOf_idem s.lastState e
        have hrest :=
          runLoop_fixed_signals window e
            (LoopState.mk (candidateOf s.lastState e) p.1) hfix rest
        simp only [signalsOf, List.map_cons] at hrest ⊢
        show (runLoop window s (LoopInput.signal e p.1 p.2 :: _)).2.length ≤ 1
        simp only [runLoop, loopStep, hstep, hrest]
        simp
      · have hstep := debounceStep_neg window s e p.1 p.2 hc
        simp only [signalsOf, List.map_cons] at ih ⊢
        show (runLoop window s (LoopInput.signal e p.1 p.2 :: _)).2.length ≤ 1
        simp only [runLoop, loopStep, hstep, List.nil_append]
        exact ih s

/-! ## Claim theorems -/

/-- C1: in a loop iteration that receives a raw candidate signal, a
transition is confirmed (a state message is published) if and only if the
elapsed time since the last confirmed transition is at least the debounce
window and the candidate differs from the last confirmed state; on
confirmation the last confirmed state becomes the candidate and the
elapsed timer is reset to zero; otherwise the state is untouched. -/
theorem debounce_confirms_iff_window_elapsed_and_changed
    (window : Nat) (s : LoopState) (e : StreamEvent) (now : Int) (o : PublishOutcome) :
    ((debounceStep window s e now o).published.isSome ↔
      ((window : Int) ≤ now - s.lastEventTime ∧ candidateOf s.lastState e ≠ s.lastState)) ∧
    (((window : Int) ≤ now - s.lastEventTime ∧ candidateOf s.lastState e ≠ s.lastState) →
      (debounceStep window s e now o).state.lastState = candidateOf s.lastState e ∧
      (debounceStep window s e now o).state.lastEventTime = now ∧
      now - (debounceStep window s e now o).state.lastEventTime = 0) ∧
    (¬((window : Int) ≤ now - s.lastEventTime ∧ candidateOf s.lastState e ≠ s.lastState) →
      (debounceStep window s e now o).state = s ∧
      (debounceStep window s e now o).published = none) := by
  by_cases hc :
      (window : Int) ≤ now - s.lastEventTime ∧ candidateOf s.lastState e ≠ s.lastState
  · rw [debounceStep_pos window s e now o hc]
    exact ⟨by simp [hc], fun _ => ⟨rfl, rfl, by simp⟩, fun hn => absurd hc hn⟩
  · rw [debounceStep_neg window s e now o hc]
    exact ⟨by simp [hc], fun hp => absurd hp hc, fun _ => ⟨rfl, rfl⟩⟩

/-- Witness for C1 at concrete inputs: a differing candidate after a full
window confirms and resets the timer; inside the window nothing happens. -/
theorem debounce_confirms_iff_window_elapsed_and_changed_witness :
    (debounceStep 300 ⟨CameraState.Off, 0⟩ (StreamEvent.ok maskOPEN) 300
        PublishOutcome.ok).state.lastEventTime = 300 ∧
    (debounceStep 300 ⟨CameraState.Off, 10⟩ (StreamEvent.ok maskOPEN) 100
        PublishOutcome.ok).published = none := by
  constructor
  · have h := debounce_confirms_iff_window_elapsed_and_changed 300 ⟨CameraState.Off, 0⟩
      (StreamEvent.ok maskOPEN) 300 PublishOutcome.ok
    exact (h.2.1 (by decide)).2.1
  · have h := debounce_confirms_iff_window_elapsed_and_changed 300 ⟨CameraState.Off, 10⟩
      (StreamEvent.ok maskOPEN) 100 PublishOutcome.ok
    exact (h.2.2 (by decide)).2

/-- C2: a candidate equal to the already-confirmed state is a complete
no-op (no publish, no timer reset, no state change) regardless of elapsed
time; consequently any run of identical raw signals — however long it is
held and however many windows pass — publishes at most once. -/
theorem stable_candidate_never_publishes (window : Nat) :
    (∀ (s : LoopState) (e : StreamEvent) (now : Int) (o : PublishOutcome),
        candidateOf s.lastState e = s.lastState →
        loopStep window s (LoopInput.signal e now o) = { state := s, published := none }) ∧
    (∀ (e : StreamEvent) (ps : List (Int × PublishOutcome)) (s : LoopState),
        (runLoop window s (signalsOf e ps)).2.length ≤ 1) :=
  ⟨fun s e now o h => loopStep_fixed window s e now o h,
   fun e ps s => runLoop_signals_le_one window e ps s⟩

/-- Witness for C2: a repeated `On` signal on an already-`On` state does
nothing even 1000 ms later, and three identical `On` signals spread over
many windows publish at most once. -/
theorem stable_candidate_never_publishes_witness :
    loopStep 300 ⟨CameraState.On, 0⟩
        (LoopInput.signal (StreamEvent.ok maskOPEN) 1000 PublishOutcome.ok) =
      { state := ⟨CameraState.On, 0⟩, published := none } ∧
    (runLoop 300 ⟨CameraState.Off, 0⟩
        (signalsOf (StreamEvent.ok maskOPEN)
          [(1000, PublishOutcome.ok), (2000, PublishOutcome.ok),
           (3000, PublishOutcome.ok)])).2.length ≤ 1 :=
  ⟨(stable_candidate_never_publishes 300).1 ⟨CameraState.On, 0⟩ (StreamEvent.ok maskOPEN)
      1000 PublishOutcome.ok (by decide),
   (stable_candidate_never_publishes 300).2 (StreamEvent.ok maskOPEN)
      [(1000, PublishOutcome.ok), (2000, PublishOutcome.ok), (3000, PublishOutcome.ok)]
      ⟨CameraState.Off, 0⟩⟩

/-- C10: an `Ok` event whose mask is not exactly `OPEN`, `CLOSE_WRITE` or
`CLOSE_NOWRITE`, and an `Err` stream item, leave the candidate equal to
the last confirmed state, so the iteration can neither publish nor change
the confirmed state. -/
theorem unrecognized_events_no_effect
    (window : Nat) (s : LoopState) (mask : Nat) (now : Int) (o : PublishOutcome)
    (h1 : mask ≠ maskOPEN) (h2 : mask ≠ maskCLOSE_WRITE) (h3 : mask ≠ maskCLOSE_NOWRITE) :
    candidateOf s.lastState (StreamEvent.ok mask) = s.lastState ∧
    debounceStep window s (StreamEvent.ok mask) now o = { state := s, published := none } ∧
    candidateOf s.lastState StreamEvent.err = s.lastState ∧
    debounceStep window s StreamEvent.err now o = { state := s, published := none } := by
  have hcand : candidateOf s.lastState (StreamEvent.ok mask) = s.lastState := by
    simp [candidateOf, h1, h2, h3]
  refine ⟨hcand, ?_, rfl, ?_⟩
  · exact debounceStep_neg window s (StreamEvent.ok mask) now o (fun hc => hc.2 hcand)
  · exact debounceStep_neg window s StreamEvent.err now o (fun hc => hc.2 rfl)

/-- Witness for C10: an `IN_ATTRIB` event (mask 4) on an idle `Off` state
with the window long elapsed still changes nothing. -/
theorem unrecognized_events_no_effect_witness :
    candidateOf CameraState.Off (StreamEvent.ok 4) = CameraState.Off ∧
    debounceStep 300 ⟨CameraState.Off, 0⟩ (StreamEvent.ok 4) 1000 PublishOutcome.ok =
      { state := ⟨CameraState.Off, 0⟩, published := none } := by
  have h := unrecognized_events_no_effect 300 ⟨CameraState.Off, 0⟩ 4 1000 PublishOutcome.ok
    (by decide) (by decide) (by decide)
  exact ⟨h.1, h.2.1⟩

/-- C6: every message published by a confirmed transition goes to the
fixed state topic with the retained flag set and at-least-once delivery,
and its payload is "ON" when the confirmed candidate is `On` and "OFF"
when it is `Off`. -/
theorem confirmed_transition_message_shape
    (window : Nat) (s : LoopState) (e : StreamEvent) (now : Int) (o : PublishOutcome)
    (m : MqttMessage) (h : (debounceStep window s e now o).published = some m) :
    m.topic = stateTopic ∧ m.qos = QoS.AtLeastOnce ∧ m.retain = true ∧
    m.payload = statePayload (candidateOf s.lastState e) ∧
    (candidateOf s.lastState e = CameraState.On → m.payload = "ON") ∧
    (candidateOf s.lastState e = CameraState.Off → m.payload = "OFF") := by
  by_cases hc :
      (window : Int) ≤ now - s.lastEventTime ∧ candidateOf s.lastState e ≠ s.lastState
  · rw [debounceStep_pos window s e now o hc] at h
    have hm : m = stateMessage (candidateOf s.lastState e) := by
      injection h with h'
      exact h'.symm
    subst hm
    refine ⟨rfl, rfl, rfl, rfl, fun h1 => ?_, fun h1 => ?_⟩
    · rw [h1]; rfl
    · rw [h1]; rfl
  · rw [debounceStep_neg window s e now o hc] at h
    exact Option.noConfusion h

/-- Witness for C6: the message of the confirmed `Off → On` transition at
time 300 is the retained, at-least-once "ON" message on the state topic. -/
theorem confirmed_transition_message_shape_witness :
    (stateMessage CameraState.On).topic = stateTopic ∧
    (stateMessage CameraState.On).payload = "ON" := by
  have h := confirmed_transition_message_shape 300 ⟨CameraState.Off, 0⟩
    (StreamEvent.ok maskOPEN) 300 PublishOutcome.ok (stateMessage CameraState.On) (by decide)
  exact ⟨h.1, h.2.2.2.2.1 (by decide)⟩

/-- Scenario A burst: `On@0ms, Off@50ms, On@120ms` as inotify events. -/
def scenarioABurst : List LoopInput :=
  [ LoopInput.signal (StreamEvent.ok maskOPEN) 0 PublishOutcome.ok,
    LoopInput.signal (StreamEvent.ok maskCLOSE_WRITE) 50 PublishOutcome.ok,
    LoopInput.signal (StreamEvent.ok maskOPEN) 120 PublishOutcome.ok ]

/-- Loop iterations after the burst in which only the idle tick and MQTT
notifications fire while wall-clock time passes beyond the window. -/
def scenarioAAfter : List LoopInput :=
  [ LoopInput.idleTick, LoopInput.mqttNotification, LoopInput.idleTick,
    LoopInput.idleTick ]

/-- C3, counterexample: with a 300 ms window, prior confirmed state `Off`
whose last confirmed transition is at time 0 (so the whole burst lies
inside the window), the burst `On@0, Off@50, On@120` followed by
iterations during which the window elapses produces NO publish at all:
the final `On` is dropped, not deferred, so no `On` publish ever happens
once the window elapses — the loop re-evaluates only on a new event. -/
theorem scenarioA_deferred_publish_refuted :
    (runLoop 300 ⟨CameraState.Off, 0⟩ (scenarioABurst ++ scenarioAAfter)).2 = [] ∧
    (runLoop 300 ⟨CameraState.Off, 0⟩ (scenarioABurst ++ scenarioAAfter)).1 =
      ⟨CameraState.Off, 0⟩ := by
  decide

/-- C3, amended: the in-window burst `On@0, Off@50, On@120` over prior
state `Off` (last transition at 0) produces zero confirmed transitions
and zero publishes; the final `On` is discarded rather than deferred, and
the state stays `Off` through the window's expiry; only a later differing
signal arriving after the window (here `On@500`) is confirmed, producing
exactly one `On` publish. -/
theorem scenarioA_burst_dropped :
    (runLoop 300 ⟨CameraState.Off, 0⟩ (scenarioABurst ++ scenarioAAfter)).2.length = 0 ∧
    (runLoop 300 ⟨CameraState.Off, 0⟩
        (scenarioABurst ++ scenarioAAfter ++
          [LoopInput.signal (StreamEvent.ok maskOPEN) 500 PublishOutcome.ok])).2 =
      [stateMessage CameraState.On] ∧
    (runLoop 300 ⟨CameraState.Off, 0⟩
        (scenarioABurst ++ scenarioAAfter ++
          [LoopInput.signal (StreamEvent.ok maskOPEN) 500 PublishOutcome.ok])).1 =
      ⟨CameraState.On, 500⟩ := by
  decide

/-- C4: startup publishes the discovery descriptor exactly once (and the
call succeeds even if the broker refuses it), initializes the confirmed
state to `Off`, and back-dates the timer by one full window, so any first
differing signal at or after startup is confirmed and published at once. -/
theorem startup_publishes_discovery_once_and_prearms
    (args : Args) (now : Int) (dOutcome : PublishOutcome) :
    (startup args now dOutcome).discoveryPublishes = [discoveryMessage] ∧
    (startup args now dOutcome).discoveryResult = Except.ok () ∧
    (startup args now dOutcome).state.lastState = CameraState.Off ∧
    now - (startup args now dOutcome).state.lastEventTime = (args.debounce_duration : Int) ∧
    (∀ (e : StreamEvent) (t : Int) (o : PublishOutcome),
      now ≤ t → candidateOf CameraState.Off e ≠ CameraState.Off →
      debounceStep args.debounce_duration (startup args now dOutcome).state e t o =
        { state := { lastState := candidateOf CameraState.Off e, lastEventTime := t }
          published := some (stateMessage (candidateOf CameraState.Off e)) }) := by
  refine ⟨?_, ?_, rfl, by simp [startup], ?_⟩
  · cases dOutcome <;> rfl
  · cases dOutcome <;> rfl
  · intro e t o ht hne
    have hcond :
        ((args.debounce_duration : Nat) : Int) ≤
            t - (startup args now dOutcome).state.lastEventTime ∧
          candidateOf (startup args now dOutcome).state.lastState e ≠
            (startup args now dOutcome).state.lastState := by
      constructor
      · show (args.debounce_duration : Int) ≤ t - (now - (args.debounce_duration : Int))
        omega
      · exact hne
    exact debounceStep_pos args.debounce_duration (startup args now dOutcome).state e t o hcond

/-- Witness for C4: with the default configuration, an `OPEN` event at the
very moment of startup is confirmed and published immediately. -/
theorem startup_publishes_discovery_once_and_prearms_witness :
    debounceStep 300
        (startup ⟨"localhost", 1883, 60, 1000, 300, 10⟩ 1000 PublishOutcome.ok).state
        (StreamEvent.ok maskOPEN) 1000 PublishOutcome.ok =
      { state := { lastState := CameraState.On, lastEventTime := 1000 }
        published := some (stateMessage CameraState.On) } := by
  have h := startup_publishes_discovery_once_and_prearms
    ⟨"localhost", 1883, 60, 1000, 300, 10⟩ 1000 PublishOutcome.ok
  exact h.2.2.2.2 (StreamEvent.ok maskOPEN) 1000 PublishOutcome.ok (by decide) (by decide)

/-- C5: a failed state publish is logged and never fatal (`send_event`
returns `Ok(())`), the confirmed state is recorded exactly as on a
successful publish, the same state is never re-published by the same
event arriving again, and a later transition to a differing state after
the window still publishes normally. -/
theorem publish_failure_never_fatal
    (window : Nat) (s : LoopState) (e : StreamEvent) (now : Int) (emsg : String) :
    (send_event (candidateOf s.lastState e) (PublishOutcome.err emsg)).result =
      Except.ok () ∧
    (send_event (candidateOf s.lastState e) (PublishOutcome.err emsg)).log =
      "error publishing state: " ++ emsg ∧
    (debounceStep window s e now (PublishOutcome.err emsg)).state =
      (debounceStep window s e now PublishOutcome.ok).state ∧
    ((debounceStep window s e now (PublishOutcome.err emsg)).published.isSome →
      (debounceStep window s e now (PublishOutcome.err emsg)).state.lastState =
        candidateOf s.lastState e ∧
      (∀ (t2 : Int) (o2 : PublishOutcome),
        (debounceStep window
            (debounceStep window s e now (PublishOutcome.err emsg)).state e t2
            o2).published = none) ∧
      (∀ (e2 : StreamEvent) (t2 : Int) (o2 : PublishOutcome),
        candidateOf (candidateOf s.lastState e) e2 ≠ candidateOf s.lastState e →
        (window : Int) ≤ t2 - now →
        (debounceStep window
            (debounceStep window s e now (PublishOutcome.err emsg)).state e2 t2
            o2).published =
          some (stateMessage (candidateOf (candidateOf s.lastState e) e2)))) := by
  refine ⟨rfl, rfl, ?_, ?_⟩
  · by_cases hc :
        (window : Int) ≤ now - s.lastEventTime ∧ candidateOf s.lastState e ≠ s.lastState
    · rw [debounceStep_pos window s e now (PublishOutcome.err emsg) hc,
        debounceStep_pos window s e now PublishOutcome.ok hc]
    · rw [debounceStep_neg window s e now (PublishOutcome.err emsg) hc,
        debounceStep_neg window s e now PublishOutcome.ok hc]
  · intro hp
    by_cases hc :
        (window : Int) ≤ now - s.lastEventTime ∧ candidateOf s.lastState e ≠ s.lastState
    · rw [debounceStep_pos window s e now (PublishOutcome.err emsg) hc]
      refine ⟨rfl, fun t2 o2 => ?_, fun e2 t2 o2 hne ht => ?_⟩
      · rw [debounceStep_neg window ⟨candidateOf s.lastState e, now⟩ e t2 o2
          (fun hc2 => hc2.2 (candidateOf_idem s.lastState e))]
      · rw [debounceStep_pos window ⟨candidateOf s.lastState e, now⟩ e2 t2 o2 ⟨ht, hne⟩]
    · rw [debounceStep_neg window s e now (PublishOutcome.err emsg) hc] at hp
      exact Bool.noConfusion hp

/-- Witness for C5: a broker failure on the `Off → On` transition at 300 ms
still records `On`, and the later `On → Off` transition at 600 ms
publishes the "OFF" message. -/
theorem publish_failure_never_fatal_witness :
    (send_event (candidateOf CameraState.Off (StreamEvent.ok maskOPEN))
        (PublishOutcome.err "down")).result = Except.ok () ∧
    (debounceStep 300
        (debounceStep 300 ⟨CameraState.Off, 0⟩ (StreamEvent.ok maskOPEN) 300
          (PublishOutcome.err "down")).state
        (StreamEvent.ok maskCLOSE_WRITE) 600 PublishOutcome.ok).published =
      some (stateMessage CameraState.Off) := by
  have h := publish_failure_never_fatal 300 ⟨CameraState.Off, 0⟩
    (StreamEvent.ok maskOPEN) 300 "down"
  refine ⟨h.1, ?_⟩
  exact (h.2.2.2 (by decide)).2.2 (StreamEvent.ok maskCLOSE_WRITE) 600 PublishOutcome.ok
    (by decide) (by decide)

/-- C7: whatever the configuration and whatever the broker answers, the
discovery descriptor startup publishes validates against the fixed
schema (`name`, `device{identifiers[], name, sw_version, model,
manufacturer}`, `state_topic`, `device_class`, `payload_on`,
`payload_off`). -/
theorem discovery_descriptor_always_valid
    (args : Args) (now : Int) (dOutcome : PublishOutcome) :
    ((startup args now dOutcome).discoveryPublishes.all
        fun d => validDiscovery d.payload) = true ∧
    validDiscovery discoveryPayload = true := by
  refine ⟨?_, rfl⟩
  cases dOutcome <;> rfl

/-- C8: zero matching device paths is not a startup error (the watch loop
over an empty glob result succeeds), and a loop that never receives a
stream event runs any number of iterations with no publish and with the
confirmed state still `Off`. -/
theorem no_matching_devices_not_fatal
    (args : Args) (now : Int) (dOutcome : PublishOutcome) (inputs : List LoopInput)
    (h : inputs.all nonSignal = true) :
    addWatches [] = Except.ok [] ∧
    runLoop args.debounce_duration (startup args now dOutcome).state inputs =
      ((startup args now dOutcome).state, []) ∧
    (runLoop args.debounce_duration (startup args now dOutcome).state
        inputs).1.lastState = CameraState.Off := by
  have hrun :=
    runLoop_nonSignal args.debounce_duration inputs (startup args now dOutcome).state h
  exact ⟨rfl, hrun, by rw [hrun]; rfl⟩

/-- Witness for C8: with the default configuration, two eventless
iterations leave the startup state untouched. -/
theorem no_matching_devices_not_fatal_witness :
    runLoop 300 (startup ⟨"localhost", 1883, 60, 1000, 300, 10⟩ 1000 PublishOutcome.ok).state
        [LoopInput.idleTick, LoopInput.mqttNotification] =
      ((startup ⟨"localhost", 1883, 60, 1000, 300, 10⟩ 1000 PublishOutcome.ok).state, []) := by
  have h := no_matching_devices_not_fatal ⟨"localhost", 1883, 60, 1000, 300, 10⟩ 1000
    PublishOutcome.ok [LoopInput.idleTick, LoopInput.mqttNotification] (by decide)
  exact h.2.1

/-- C9: the topic `send_event` publishes every state message to is
character-for-character the `state_topic` field embedded in the discovery
descriptor. -/
theorem state_topic_matches_discovery :
    (∀ st : CameraState, (stateMessage st).topic = stateTopic) ∧
    discoveryPayload.field "state_topic" = some (Json.str stateTopic) ∧
    discoveryMessage.payload.field "state_topic" = some (Json.str stateTopic) :=
  ⟨fun _ => rfl, rfl, rfl⟩

end CameraSnitch
